import Mathlib

/-!
# LeadsManager — Google Sheets sync subsystem, shallow embedding

This file embeds the Google Sheets synchronization logic of the
LeadsManager repository and proves/refutes the specification claims
about it.

The authoritative implementation is `sync_campaign` /
`sync_all_campaigns` in `app.py` (lines 3488–3948); a legacy scheduler
variant lives in `sync_campaigns.py` and is embedded separately (as
`script_sync`) where a claim cites it.

Modelling conventions:
* a CSV row (Python `csv.DictReader` dict) is a `Row`: an association
  list from header to cell text, with unique keys; a missing key reads
  as `""` (Python `dict.get` returning `None` is falsy exactly like
  `''` in every use site embedded here);
* the database is a `List Lead`; SQL `NULL` columns are `Option`;
* the per-tab JSONB cursor `last_synced_row` is an association list
  `List (String × Nat)` with default value 1 (`getCursor`);
* timestamps are abstract `Nat` ticks (`now` parameter);
* network fetch is an `Option (List Row)`: `none` models a
  `requests` exception (network error / timeout / non-2xx via
  `raise_for_status`), `some rows` the parsed CSV data rows;
* row-level database exceptions are not representable in the pure
  model, so the `errors` counter is always 0 here.
-/

/-- Python `str.strip()` whitespace test (ASCII whitespace actually
stripped by the code paths embedded here). -/
def isPySpace (c : Char) : Bool :=
  c = ' ' || c = '\t' || c = '\n' || c = '\r' || c = '\x0b' || c = '\x0c'

/-- Python `str.strip()`: drop leading and trailing whitespace. -/
def pyStrip (s : String) : String :=
  String.mk (((s.toList.dropWhile isPySpace).reverse.dropWhile isPySpace).reverse)

/-- Python `str.replace(c, '')` for a single character: remove every
occurrence of `c`. -/
def removeAll (c : Char) (s : String) : String :=
  String.mk (s.toList.filter (fun x => x ≠ c))

/-- `app.py:3593-3595` (and `sync_campaigns.py:121-123`): phone cleanup
`str(phone).strip().replace('-', '').replace(' ', '')`, applied only
when the extracted phone is non-empty (`if phone:`). -/
def normalizePhone (p : String) : String :=
  if p = "" then p else removeAll ' ' (removeAll '-' (pyStrip p))

/-- One parsed CSV data row: the `csv.DictReader` mapping from column
header to cell text (keys unique). -/
structure Row where
  cells : List (String × String)
deriving DecidableEq, Repr

/-- `row_data.get(h)` coerced through Python truthiness: a missing
header or a `None` value behaves exactly like `''` at every embedded
use site. -/
def rowGet (r : Row) (h : String) : String :=
  ((r.cells.find? (fun kv => kv.1 == h)).map (fun kv => kv.2)).getD ""

/-- `any(row_data.values())` — the row has some non-empty cell. -/
def rowNonEmpty (r : Row) : Bool :=
  r.cells.any (fun kv => kv.2 != "")

/-- First non-empty value among an alias chain of headers — the Python
`row_data.get(a) or row_data.get(b) or ... or ''` idiom. -/
def firstNonEmpty (r : Row) : List String → String
  | [] => ""
  | h :: t => let v := rowGet r h; if v = "" then firstNonEmpty r t else v

/-- `app.py:3582-3583`: name header aliases, in probe order. -/
def nameAliases : List String := ["שם מלא", "שם", "name", "Name"]

/-- `app.py:3585-3587`: phone header aliases, in probe order. -/
def phoneAliases : List String :=
  ["מס פלאפון", "טלפון", "מספר טלפון", "phone", "Phone Number", "טלפון:"]

/-- `app.py:3589-3591`: email header aliases, in probe order. -/
def emailAliases : List String :=
  ["מייל", "אימייל", "דוא\"ל", "email", "Email", "אימייל:"]

/-- Extracted (raw) name of a row — no further cleanup is applied in
`app.py`. -/
def nameOf (r : Row) : String := firstNonEmpty r nameAliases

/-- Extracted phone after cleanup (`app.py:3585-3595`). -/
def phoneOf (r : Row) : String := normalizePhone (firstNonEmpty r phoneAliases)

/-- Extracted email — used verbatim, `app.py` applies no cleanup. -/
def emailOf (r : Row) : String := firstNonEmpty r emailAliases

/-- One row of the `leads` table, restricted to the columns the sync
subsystem reads or writes.  `campaign` is the column written by
`app.py`'s insert, `campaign_name` the one written by
`sync_campaigns.py`'s insert; `sheet_id` and `row_number` are the
provenance fields stored in `raw_data` and queried back by the
script's row-level duplicate check. -/
structure Lead where
  customer_id : Nat
  name : String
  email : Option String
  phone : Option String
  status : String
  campaign : Option String
  campaign_name : Option String
  sheet_id : String
  row_number : Nat
deriving DecidableEq, Repr

/-- `app.py:3604-3614` (identical SQL at `sync_campaigns.py:150-155`):
`SELECT id FROM leads WHERE customer_id = %s AND ((phone IS NOT NULL
AND phone = %s) OR (email IS NOT NULL AND email = %s)) LIMIT 1`,
called with parameters `phone or ''` and `email or ''`. -/
def isDuplicate (db : List Lead) (cid : Nat) (p e : String) : Bool :=
  db.any (fun l =>
    l.customer_id == cid &&
      ((match l.phone with | some lp => lp == p | none => false) ||
       (match l.email with | some le => le == e | none => false)))

/-- Mutable loop state of the row loop in `app.py`'s `sync_campaign`. -/
structure RunState where
  db : List Lead
  new_leads : Nat
  duplicates : Nat
  errors : Nat
  current_row : Nat
deriving DecidableEq, Repr

/-- `app.py:3636-3650`: the lead inserted for a non-duplicate row
(`name or 'Unknown'`, `email if email else None`, `phone if phone
else None`, status `'new'`; `raw_data` provenance carries the
campaign's `sheet_id` and the row number). -/
def mkLead (cid : Nat) (cname sheetId : String) (r : Row) (i : Nat) : Lead :=
  { customer_id := cid
    name := if nameOf r = "" then "Unknown" else nameOf r
    email := if emailOf r = "" then none else some (emailOf r)
    phone := if phoneOf r = "" then none else some (phoneOf r)
    status := "new"
    campaign := some cname
    campaign_name := none
    sheet_id := sheetId
    row_number := i }

/-- A row is skipped (`continue`) before the duplicate lookup when it
is at or below the cursor (`app.py:3572`), has no non-empty cell
(`app.py:3577`), or extracts neither name nor phone nor email
(`app.py:3598`). -/
def rowSkipped (last i : Nat) (r : Row) : Bool :=
  decide (i ≤ last) || !(rowNonEmpty r) ||
    (nameOf r == "" && phoneOf r == "" && emailOf r == "")

/-- One iteration of the row loop of `app.py`'s `sync_campaign`
(lines 3568–3670). -/
def syncStep (cid : Nat) (cname sheetId : String) (last : Nat)
    (st : RunState) (r : Row) : RunState :=
  if rowSkipped last (st.current_row + 1) r then
    { st with current_row := st.current_row + 1 }
  else if isDuplicate st.db cid (phoneOf r) (emailOf r) then
    { st with
      current_row := st.current_row + 1
      duplicates := st.duplicates + 1 }
  else
    { st with
      current_row := st.current_row + 1
      new_leads := st.new_leads + 1
      db := st.db ++ [mkLead cid cname sheetId r (st.current_row + 1)] }

/-- The whole row loop: fold `syncStep` over the data rows, starting
with `current_row = 1` (the header is row 1). -/
def syncRows (cid : Nat) (cname sheetId : String) (last : Nat)
    (st : RunState) (rows : List Row) : RunState :=
  rows.foldl (syncStep cid cname sheetId last) st

/-- Initial loop state (`app.py:3563-3566`). -/
def initState (db : List Lead) : RunState :=
  { db := db, new_leads := 0, duplicates := 0, errors := 0, current_row := 1 }

/-- Characters the sheet-id capture group `([a-zA-Z0-9-_]+)` accepts. -/
def idChar (c : Char) : Bool :=
  c.isAlpha || c.isDigit || c = '-' || c = '_'

/-- `startsWithChars pat cs`: `cs` begins with `pat`. -/
def startsWithChars : List Char → List Char → Bool
  | [], _ => true
  | _ :: _, [] => false
  | a :: as, b :: bs => a == b && startsWithChars as bs

/-- Leftmost-match scan of `re.search(pat(capture+))`: at each
position, if the literal `pat` occurs followed by at least one
character accepted by `good`, capture that maximal run; otherwise
advance one character. -/
def scanCapture (pat : List Char) (good : Char → Bool) :
    List Char → Option String
  | [] => none
  | c :: rest =>
    if startsWithChars pat (c :: rest) then
      let cand := ((c :: rest).drop pat.length).takeWhile good
      if cand.isEmpty then scanCapture pat good rest
      else some (String.mk cand)
    else scanCapture pat good rest

/-- `app.py:3520-3524`: `re.search(r'/d/([a-zA-Z0-9-_]+)', url)` —
extract the spreadsheet id from the sheet URL; `none` models the
regex not matching (the 400 "Invalid Google Sheet URL" branch). -/
def extractSheetId (url : String) : Option String :=
  scanCapture "/d/".toList idChar url.toList

/-- `app.py:3527-3528`: `re.search(r'gid=(\d+)', url)` — the tab id
from the URL, defaulting to `"0"`. -/
def extractGid (url : String) : String :=
  (scanCapture "gid=".toList Char.isDigit url.toList).getD "0"

/-- `app.py:3529`: the JSONB key for this tab, e.g. `"gid_0"`. -/
def gidKey (url : String) : String := "gid_" ++ extractGid url

/-- `last_synced_data.get(gid_key, 1)` (`app.py:3560`): per-tab cursor
lookup with default 1. -/
def getCursor (m : List (String × Nat)) (k : String) : Nat :=
  ((m.find? (fun kv => kv.1 == k)).map (fun kv => kv.2)).getD 1

/-- `last_synced_data[gid_key] = current_row` (`app.py:3674`): update
one key of the JSONB map, preserving the other tabs' entries. -/
def setCursor (m : List (String × Nat)) (k : String) (v : Nat) :
    List (String × Nat) :=
  if m.any (fun kv => kv.1 == k) then
    m.map (fun kv => if kv.1 == k then (k, v) else kv)
  else m ++ [(k, v)]

/-- One row of the `campaigns` table, restricted to the columns the
sync subsystem reads or writes.  `cursor` is the JSONB
`last_synced_row` map, `last_synced_at` the sync timestamp. -/
structure Campaign where
  id : Nat
  customer_id : Nat
  campaign_name : String
  sheet_url : String
  sheet_id : String
  active : Bool
  cursor : List (String × Nat)
  last_synced_at : Nat
deriving DecidableEq, Repr

/-- Counters returned by one campaign sync (`app.py:3686-3696`). -/
structure SyncResult where
  new_leads : Nat
  duplicates : Nat
  errors : Nat
  last_synced_row : Nat
deriving DecidableEq, Repr

/-- `app.py`'s `sync_campaign` body from the CSV fetch onwards
(lines 3544–3700): `none` fetch models a `requests` exception
(network failure / timeout / `raise_for_status`), which aborts the
run before any row is processed and before the cursor update; a
successful fetch runs the row loop over all data rows, then writes
the cursor for this tab to the final `current_row` and stamps
`last_synced_at` in the same `UPDATE`.  Returns the updated campaign,
the updated leads table and the result counters (`none` on fetch
failure). -/
def sync_campaign (camp : Campaign) (db : List Lead)
    (fetch : Option (List Row)) (now : Nat) :
    Campaign × List Lead × Option SyncResult :=
  match fetch with
  | none => (camp, db, none)
  | some rows =>
    let gk := gidKey camp.sheet_url
    let last := getCursor camp.cursor gk
    let fin := syncRows camp.customer_id camp.campaign_name camp.sheet_id
      last (initState db) rows
    ({ camp with
        cursor := setCursor camp.cursor gk fin.current_row
        last_synced_at := now },
     fin.db,
     some { new_leads := fin.new_leads, duplicates := fin.duplicates,
            errors := fin.errors, last_synced_row := fin.current_row })

/-- HTTP status and post-state of the `POST
/admin/campaigns/sync/<id>` route (`app.py:3488-3709`).  In route
order: no database connection → 500; campaign not found → 404; empty
`sheet_url` → 400; sheet-id regex fails → 400; fetch exception → 500
(state untouched in each case); otherwise the sync runs and the route
returns 200. -/
def sync_campaign_endpoint (dbAvail : Bool) (found : Option Campaign)
    (db : List Lead) (fetch : Option (List Row)) (now : Nat) :
    Nat × Option Campaign × List Lead × Option SyncResult :=
  if !dbAvail then (500, found, db, none)
  else
    match found with
    | none => (404, none, db, none)
    | some camp =>
      if camp.sheet_url = "" then (400, some camp, db, none)
      else
        match extractSheetId camp.sheet_url with
        | none => (400, some camp, db, none)
        | some _ =>
          match fetch with
          | none => (500, some camp, db, none)
          | some rows =>
            let out := sync_campaign camp db (some rows) now
            (200, some out.1, out.2.1, out.2.2)

/-- One per-campaign entry of the `results` list built by
`sync_all_campaigns` (`app.py:3911-3931`). -/
structure CampaignEntry where
  campaign_id : Nat
  success : Bool
  new_leads : Nat
  duplicates : Nat
  errors : Nat
deriving DecidableEq, Repr

/-- The `results` entry recorded when a campaign's sync raises
(fetch exception) or its URL is invalid (`app.py:3774-3783,
3924-3931`). -/
def failEntry (c : Campaign) : CampaignEntry :=
  { campaign_id := c.id, success := false,
    new_leads := 0, duplicates := 0, errors := 0 }

/-- The per-campaign loop of `sync_all_campaigns`
(`app.py:3748-3931`): each active campaign is synced in turn against
the database state left by its predecessors; an invalid URL or a
fetch exception yields a `success:false` entry and the loop
continues with the next campaign. -/
def syncAllGo (fetchOf : Nat → Option (List Row)) (now : Nat) :
    List Campaign → List Lead →
    List Campaign × List Lead × List CampaignEntry
  | [], db => ([], db, [])
  | c :: rest, db =>
    match extractSheetId c.sheet_url with
    | none =>
      let next := syncAllGo fetchOf now rest db
      (c :: next.1, next.2.1, failEntry c :: next.2.2)
    | some _ =>
      match fetchOf c.id with
      | none =>
        let next := syncAllGo fetchOf now rest db
        (c :: next.1, next.2.1, failEntry c :: next.2.2)
      | some rows =>
        let out := sync_campaign c db (some rows) now
        let entry : CampaignEntry :=
          { campaign_id := c.id, success := true,
            new_leads := (out.2.2.map SyncResult.new_leads).getD 0,
            duplicates := (out.2.2.map SyncResult.duplicates).getD 0,
            errors := (out.2.2.map SyncResult.errors).getD 0 }
        let next := syncAllGo fetchOf now rest out.2.1
        (out.1 :: next.1, next.2.1, entry :: next.2.2)

/-- `app.py:3723-3728`: the sweep considers exactly the active
campaigns with a non-empty `sheet_url`. -/
def activeCampaigns (camps : List Campaign) : List Campaign :=
  camps.filter (fun c => c.active && c.sheet_url != "")

/-- `sync_all_campaigns` (`app.py:3711-3948`): filter to active
campaigns with sheet URLs, then sync each sequentially. -/
def sync_all_campaigns (camps : List Campaign)
    (fetchOf : Nat → Option (List Row)) (db : List Lead) (now : Nat) :
    List Campaign × List Lead × List CampaignEntry :=
  syncAllGo fetchOf now (activeCampaigns camps) db

/-- HTTP status of the `POST /admin/campaigns/sync-all` route: 500
only when no database connection is available (`app.py:3716-3718`);
all per-campaign failures are caught inside the loop, so the route
otherwise returns 200 with the per-campaign entries
(`app.py:3935-3942`). -/
def sync_all_endpoint (dbAvail : Bool) (camps : List Campaign)
    (fetchOf : Nat → Option (List Row)) (db : List Lead) (now : Nat) :
    Nat × List CampaignEntry :=
  if dbAvail then (200, (sync_all_campaigns camps fetchOf db now).2.2)
  else (500, [])

/-- The fetch timeout passed to `requests.get` (`app.py:3544`,
`sync_campaigns.py:77`), in seconds. -/
def fetchTimeoutSeconds : Nat := 30

/-- The `column_mapping` JSONB of a campaign as read by the legacy
scheduler script (`sync_campaigns.py:101-108`): header names for each
target field, `""` meaning unmapped (Python `column_mapping.get(k,
'')` on a missing key, which makes the row lookup fall back to the
empty header and hence to `''`). -/
structure ColumnMapping where
  nameCol : String
  phoneCol : String
  emailCol : String
  campaignCol : String
deriving DecidableEq, Repr

/-- Loop state of the legacy script's row loop
(`sync_campaigns.py:83-196`).  `max_row` is `max_row_processed`
(advanced only when a lead is inserted); `halted` models the `break`
taken when the campaign has no usable column mapping. -/
structure ScriptState where
  db : List Lead
  new_leads : Nat
  duplicates : Nat
  errors : Nat
  current_row : Nat
  max_row : Nat
  halted : Bool
deriving DecidableEq, Repr

/-- `sync_campaigns.py:134-141`: the script's first duplicate check,
by provenance — same customer, same `campaign_name` column, same
`raw_data` row number and sheet id. -/
def isRowDuplicate (db : List Lead) (cid : Nat) (fcn : String)
    (i : Nat) (sheetId : String) : Bool :=
  db.any (fun l =>
    l.customer_id == cid &&
      (match l.campaign_name with | some n => n == fcn | none => false) &&
      l.row_number == i && l.sheet_id == sheetId)

/-- `sync_campaigns.py:175-188`: the lead inserted by the script
(name is guaranteed non-empty by its validation; `campaign_name`
column written instead of `campaign`). -/
def mkScriptLead (cid : Nat) (fcn sheetId : String)
    (nm ph em : String) (i : Nat) : Lead :=
  { customer_id := cid
    name := nm
    email := if em = "" then none else some em
    phone := if ph = "" then none else some ph
    status := "new"
    campaign := none
    campaign_name := some fcn
    sheet_id := sheetId
    row_number := i }

/-- One iteration of the legacy script's row loop
(`sync_campaigns.py:89-196`): cursor skip, empty-row skip, `break`
when the name column is unmapped, `.strip()` on each extracted field,
phone cleanup, the `name AND (phone OR email)` validation, the
row-provenance duplicate check, then the phone/email duplicate check,
then the insert (which is the only statement advancing
`max_row_processed`). -/
def scriptStep (cid : Nat) (cname sheetId : String) (cm : ColumnMapping)
    (last : Nat) (st : ScriptState) (r : Row) : ScriptState :=
  if st.halted then st
  else
    let i := st.current_row + 1
    if i ≤ last then { st with current_row := i }
    else if !(rowNonEmpty r) then { st with current_row := i }
    else if cm.nameCol = "" then { st with current_row := i, halted := true }
    else
      let nm := pyStrip (rowGet r cm.nameCol)
      let ph := normalizePhone (pyStrip (rowGet r cm.phoneCol))
      let em := pyStrip (rowGet r cm.emailCol)
      let rowCampaign := pyStrip (rowGet r cm.campaignCol)
      if nm = "" || (ph = "" && em = "") then { st with current_row := i }
      else
        let fcn := if rowCampaign = "" then cname else rowCampaign
        if isRowDuplicate st.db cid fcn i sheetId then
          { st with current_row := i, duplicates := st.duplicates + 1 }
        else if isDuplicate st.db cid ph em then
          { st with current_row := i, duplicates := st.duplicates + 1 }
        else
          { st with
            current_row := i
            new_leads := st.new_leads + 1
            max_row := i
            db := st.db ++ [mkScriptLead cid fcn sheetId nm ph em i] }

/-- Result of one legacy-script campaign sync: final leads table,
counters, and `cursorWritten` — `some v` when the script executed its
cursor `UPDATE` (writing `v` and the sync timestamp together), `none`
when the guard `max_row_processed > last_synced_row` suppressed it
(`sync_campaigns.py:198-204`). -/
structure ScriptResult where
  db : List Lead
  new_leads : Nat
  duplicates : Nat
  errors : Nat
  cursorWritten : Option Nat
deriving DecidableEq, Repr

/-- The legacy script's `sync_campaign` from the parsed CSV onwards
(`sync_campaigns.py:81-218`).  The script's cursor is a plain integer
(`last_synced_row or 0`), and its row counter starts at 0, so data
rows are numbered from 1 (no header offset, unlike `app.py`). -/
def script_sync (cid : Nat) (cname sheetId : String) (cm : ColumnMapping)
    (last : Nat) (db : List Lead) (rows : List Row) : ScriptResult :=
  let st0 : ScriptState :=
    { db := db, new_leads := 0, duplicates := 0, errors := 0,
      current_row := 0, max_row := last, halted := false }
  let fin := rows.foldl (scriptStep cid cname sheetId cm last) st0
  { db := fin.db, new_leads := fin.new_leads, duplicates := fin.duplicates,
    errors := fin.errors,
    cursorWritten := if last < fin.max_row then some fin.max_row else none }

/-! ## General lemmas about the row loop -/

theorem syncStep_current_row (cid : Nat) (cn sh : String) (last : Nat)
    (st : RunState) (r : Row) :
    (syncStep cid cn sh last st r).current_row = st.current_row + 1 := by
  unfold syncStep
  split
  · rfl
  · split <;> rfl

theorem syncRows_current_row (cid : Nat) (cn sh : String) (last : Nat) :
    ∀ (rows : List Row) (st : RunState),
      (syncRows cid cn sh last st rows).current_row
        = st.current_row + rows.length := by
  intro rows
  induction rows with
  | nil => intro st; rfl
  | cons r rest ih =>
    intro st
    show (syncRows cid cn sh last (syncStep cid cn sh last st r) rest).current_row = _
    rw [ih, syncStep_current_row]
    simp [List.length_cons]
    omega

theorem mem_db_syncStep (cid : Nat) (cn sh : String) (last : Nat)
    (st : RunState) (r : Row) (l : Lead) (hl : l ∈ st.db) :
    l ∈ (syncStep cid cn sh last st r).db := by
  unfold syncStep
  split
  · exact hl
  · split
    · exact hl
    · exact List.mem_append_left _ hl

theorem mem_db_syncRows (cid : Nat) (cn sh : String) (last : Nat) :
    ∀ (rows : List Row) (st : RunState) (l : Lead), l ∈ st.db →
      l ∈ (syncRows cid cn sh last st rows).db := by
  intro rows
  induction rows with
  | nil => intro st l hl; exact hl
  | cons r rest ih =>
    intro st l hl
    exact ih (syncStep cid cn sh last st r) l (mem_db_syncStep _ _ _ _ _ _ _ hl)

theorem isDuplicate_mono (db db2 : List Lead) (cid : Nat) (p e : String)
    (hsub : ∀ l ∈ db, l ∈ db2) (h : isDuplicate db cid p e = true) :
    isDuplicate db2 cid p e = true := by
  unfold isDuplicate at h ⊢
  rw [List.any_eq_true] at h ⊢
  obtain ⟨l, hl, hp⟩ := h
  exact ⟨l, hsub l hl, hp⟩

theorem syncStep_errors (cid : Nat) (cn sh : String) (last : Nat)
    (st : RunState) (r : Row) :
    (syncStep cid cn sh last st r).errors = st.errors := by
  unfold syncStep
  split
  · rfl
  · split <;> rfl

theorem getCursor_setCursor (m : List (String × Nat)) (k : String) (v : Nat) :
    getCursor (setCursor m k v) k = v := by
  induction m with
  | nil => simp [setCursor, getCursor, List.find?]
  | cons a t ih =>
    by_cases hk : a.1 = k
    · have hset : setCursor (a :: t) k v
          = (k, v) :: t.map (fun kv => if kv.1 == k then (k, v) else kv) := by
        simp [setCursor, List.any_cons, hk]
      rw [hset]
      simp [getCursor, List.find?]
    · have hkb : (a.1 == k) = false := beq_eq_false_iff_ne.mpr hk
      have hset : setCursor (a :: t) k v = a :: setCursor t k v := by
        by_cases ht : t.any (fun kv => kv.1 == k) = true
        · simp [setCursor, List.any_cons, hk, ht]
        · have ht' : (t.any fun kv => kv.1 == k) = false :=
            Bool.eq_false_iff.mpr ht
          simp [setCursor, List.any_cons, hk, ht']
      rw [hset]
      simpa [getCursor, List.find?, hkb] using ih

theorem syncStep_covers (cid : Nat) (cn sh : String) (last : Nat)
    (st : RunState) (r : Row)
    (hskip : rowSkipped last (st.current_row + 1) r = false)
    (hne : phoneOf r ≠ "" ∨ emailOf r ≠ "") :
    isDuplicate (syncStep cid cn sh last st r).db cid
      (phoneOf r) (emailOf r) = true := by
  unfold syncStep
  rw [if_neg (by simp [hskip])]
  split
  · rename_i hdup
    exact hdup
  · show isDuplicate (st.db ++ [mkLead cid cn sh r (st.current_row + 1)])
      cid (phoneOf r) (emailOf r) = true
    unfold isDuplicate
    rw [List.any_append]
    apply Bool.or_eq_true_iff.mpr
    right
    simp only [List.any_cons, List.any_nil, Bool.or_false]
    by_cases hp : phoneOf r = ""
    · have he : emailOf r ≠ "" := by
        rcases hne with h | h
        · exact absurd hp h
        · exact h
      simp [mkLead, hp, he]
    · simp [mkLead, hp]

theorem syncRows_covers (cid : Nat) (cn sh : String) (last : Nat) :
    ∀ (rows : List Row) (st : RunState) (j : Nat) (hj : j < rows.length),
      rowSkipped last (st.current_row + j + 1) (rows.get ⟨j, hj⟩) = false →
      (phoneOf (rows.get ⟨j, hj⟩) ≠ "" ∨ emailOf (rows.get ⟨j, hj⟩) ≠ "") →
      isDuplicate (syncRows cid cn sh last st rows).db cid
        (phoneOf (rows.get ⟨j, hj⟩)) (emailOf (rows.get ⟨j, hj⟩)) = true := by
  intro rows
  induction rows with
  | nil => intro st j hj; exact absurd hj (by simp)
  | cons r rest ih =>
    intro st j hj hskip hne
    match j with
    | 0 =>
      have hcov := syncStep_covers cid cn sh last st r hskip hne
      exact isDuplicate_mono _ _ _ _ _
        (fun l hl => mem_db_syncRows cid cn sh last rest _ l hl) hcov
    | Nat.succ j' =>
      have hj' : j' < rest.length := by
        simpa [List.length_cons, Nat.succ_lt_succ_iff] using hj
      have hidx : (syncStep cid cn sh last st r).current_row + j' + 1
          = st.current_row + (j' + 1) + 1 := by
        rw [syncStep_current_row]; omega
      have := ih (syncStep cid cn sh last st r) j' hj'
        (by rw [hidx]; exact hskip) hne
      exact this

theorem syncStep_frozen (cid : Nat) (cn sh : String) (last : Nat)
    (st : RunState) (r : Row)
    (h : rowSkipped last (st.current_row + 1) r = true ∨
      isDuplicate st.db cid (phoneOf r) (emailOf r) = true) :
    (syncStep cid cn sh last st r).db = st.db ∧
      (syncStep cid cn sh last st r).new_leads = st.new_leads := by
  unfold syncStep
  rcases h with h | h
  · rw [if_pos h]
    exact ⟨rfl, rfl⟩
  · by_cases hs : rowSkipped last (st.current_row + 1) r = true
    · rw [if_pos hs]
      exact ⟨rfl, rfl⟩
    · rw [if_neg hs, if_pos h]
      exact ⟨rfl, rfl⟩

theorem syncRows_no_inserts (cid : Nat) (cn sh : String) (last : Nat) :
    ∀ (rows : List Row) (st : RunState),
      (∀ (j : Nat) (hj : j < rows.length),
        rowSkipped last (st.current_row + j + 1) (rows.get ⟨j, hj⟩) = false →
        isDuplicate st.db cid (phoneOf (rows.get ⟨j, hj⟩))
          (emailOf (rows.get ⟨j, hj⟩)) = true) →
      (syncRows cid cn sh last st rows).db = st.db ∧
        (syncRows cid cn sh last st rows).new_leads = st.new_leads := by
  intro rows
  induction rows with
  | nil => intro st _; exact ⟨rfl, rfl⟩
  | cons r rest ih =>
    intro st h
    have hstep : (syncStep cid cn sh last st r).db = st.db ∧
        (syncStep cid cn sh last st r).new_leads = st.new_leads := by
      apply syncStep_frozen
      by_cases hs : rowSkipped last (st.current_row + 1) r = true
      · exact Or.inl hs
      · exact Or.inr (h 0 (by simp) (Bool.eq_false_iff.mpr hs))
    have hhyp : ∀ (j : Nat) (hj : j < rest.length),
        rowSkipped last ((syncStep cid cn sh last st r).current_row + j + 1)
          (rest.get ⟨j, hj⟩) = false →
        isDuplicate (syncStep cid cn sh last st r).db cid
          (phoneOf (rest.get ⟨j, hj⟩)) (emailOf (rest.get ⟨j, hj⟩)) = true := by
      intro j hj hskip
      have hidx : (syncStep cid cn sh last st r).current_row + j + 1
          = st.current_row + (j + 1) + 1 := by
        rw [syncStep_current_row]; omega
      rw [hstep.1]
      exact h (j + 1) (by simpa [List.length_cons, Nat.succ_lt_succ_iff] using hj)
        (by rw [← hidx]; exact hskip)
    have hrest := ih (syncStep cid cn sh last st r) hhyp
    exact ⟨by rw [show syncRows cid cn sh last st (r :: rest)
        = syncRows cid cn sh last (syncStep cid cn sh last st r) rest from rfl,
        hrest.1, hstep.1],
      by rw [show syncRows cid cn sh last st (r :: rest)
        = syncRows cid cn sh last (syncStep cid cn sh last st r) rest from rfl,
        hrest.2, hstep.2]⟩

theorem syncRows_all_skipped (cid : Nat) (cn sh : String) (last : Nat) :
    ∀ (rows : List Row) (st : RunState),
      (∀ (j : Nat) (hj : j < rows.length),
        rowSkipped last (st.current_row + j + 1) (rows.get ⟨j, hj⟩) = true) →
      syncRows cid cn sh last st rows
        = { st with current_row := st.current_row + rows.length } := by
  intro rows
  induction rows with
  | nil =>
    intro st _
    show st = { st with current_row := st.current_row + 0 }
    rfl
  | cons r rest ih =>
    intro st h
    have h0 : rowSkipped last (st.current_row + 1) r = true := h 0 (by simp)
    have hstep : syncStep cid cn sh last st r
        = { st with current_row := st.current_row + 1 } := by
      unfold syncStep
      rw [if_pos h0]
    have hhyp : ∀ (j : Nat)
        (hj : j < rest.length),
        rowSkipped last
          (({ st with current_row := st.current_row + 1 } : RunState).current_row
            + j + 1) (rest.get ⟨j, hj⟩) = true := by
      intro j hj
      have hidx : st.current_row + 1 + j + 1 = st.current_row + (j + 1) + 1 := by
        omega
      show rowSkipped last (st.current_row + 1 + j + 1) (rest.get ⟨j, hj⟩) = true
      rw [hidx]
      exact h (j + 1) (by simpa [List.length_cons, Nat.succ_lt_succ_iff] using hj)
    show syncRows cid cn sh last (syncStep cid cn sh last st r) rest = _
    rw [hstep, ih { st with current_row := st.current_row + 1 } hhyp]
    have hlen : st.current_row + 1 + rest.length
        = st.current_row + (r :: rest).length := by
      simp [List.length_cons]
      omega
    rw [hlen]

theorem rowSkipped_false_fields (last i : Nat) (r : Row)
    (h : rowSkipped last i r = false) :
    ¬(nameOf r = "" ∧ phoneOf r = "" ∧ emailOf r = "") := by
  rintro ⟨h1, h2, h3⟩
  have htrue : rowSkipped last i r = true := by
    simp [rowSkipped, h1, h2, h3]
  rw [h] at htrue
  exact Bool.false_ne_true htrue

theorem nonSkipped_contact (last i : Nat) (r : Row)
    (hskip : rowSkipped last i r = false)
    (h : nameOf r = "" ∨ phoneOf r ≠ "" ∨ emailOf r ≠ "") :
    phoneOf r ≠ "" ∨ emailOf r ≠ "" := by
  by_cases hp : phoneOf r = ""
  · by_cases he : emailOf r = ""
    · rcases h with hn | hp' | he'
      · exact absurd ⟨hn, hp, he⟩ (rowSkipped_false_fields last i r hskip)
      · exact absurd hp hp'
      · exact absurd he he'
    · exact Or.inr he
  · exact Or.inl hp

theorem rowSkipped_of_cursor (last i : Nat) (r : Row) (h : i ≤ last) :
    rowSkipped last i r = true := by
  simp [rowSkipped, h]

/-- Replay core: rerunning the row loop on the same rows with the same
cursor, against the database produced by the first run, inserts
nothing and leaves the database unchanged — provided no row is
"name-only" (non-empty name but empty phone and email). -/
theorem replay_core (cid : Nat) (cn sh : String) (L : Nat)
    (db0 : List Lead) (rows : List Row)
    (h : ∀ r ∈ rows, nameOf r = "" ∨ phoneOf r ≠ "" ∨ emailOf r ≠ "") :
    (syncRows cid cn sh L
        (initState (syncRows cid cn sh L (initState db0) rows).db)
        rows).new_leads = 0 ∧
    (syncRows cid cn sh L
        (initState (syncRows cid cn sh L (initState db0) rows).db)
        rows).db
      = (syncRows cid cn sh L (initState db0) rows).db := by
  have hcore := syncRows_no_inserts cid cn sh L rows
    (initState (syncRows cid cn sh L (initState db0) rows).db) ?_
  · exact ⟨hcore.2, hcore.1⟩
  · intro j hj hskip
    have hmem : rows.get ⟨j, hj⟩ ∈ rows := List.get_mem rows j hj
    have hne := nonSkipped_contact L
      ((initState (syncRows cid cn sh L (initState db0) rows).db).current_row
        + j + 1)
      (rows.get ⟨j, hj⟩) hskip (h _ hmem)
    exact syncRows_covers cid cn sh L rows (initState db0) j hj hskip hne

/-- Advanced-cursor replay core: when the stored cursor is at least
`rows.length + 1`, every row is skipped by the cursor check and the
loop counts nothing at all. -/
theorem advanced_replay_core (cid : Nat) (cn sh : String)
    (db1 : List Lead) (rows : List Row) (L : Nat)
    (hL : rows.length + 1 ≤ L) :
    (syncRows cid cn sh L (initState db1) rows).new_leads = 0 ∧
    (syncRows cid cn sh L (initState db1) rows).duplicates = 0 := by
  have hall := syncRows_all_skipped cid cn sh L rows (initState db1) ?_
  · rw [hall]
    exact ⟨rfl, rfl⟩
  · intro j hj
    apply rowSkipped_of_cursor
    show 1 + j + 1 ≤ L
    omega

/-- Shape invariant of every lead the `app.py` sync inserts: name
non-empty (falling back to `'Unknown'`), phone and email either SQL
`NULL` or a non-empty string. -/
def leadWF (l : Lead) : Prop :=
  l.name ≠ "" ∧ (∀ s, l.phone = some s → s ≠ "") ∧
    (∀ s, l.email = some s → s ≠ "")

theorem mkLead_wf (cid : Nat) (cn sh : String) (r : Row) (i : Nat) :
    leadWF (mkLead cid cn sh r i) := by
  refine ⟨?_, ?_, ?_⟩
  · show (if nameOf r = "" then "Unknown" else nameOf r) ≠ ""
    split
    · decide
    · rename_i hn
      exact hn
  · intro s hs
    by_cases hp : phoneOf r = ""
    · simp [mkLead, hp] at hs
    · have : (mkLead cid cn sh r i).phone = some (phoneOf r) := by
        simp [mkLead, hp]
      rw [this] at hs
      injection hs with hs
      rw [← hs]
      exact hp
  · intro s hs
    by_cases he : emailOf r = ""
    · simp [mkLead, he] at hs
    · have : (mkLead cid cn sh r i).email = some (emailOf r) := by
        simp [mkLead, he]
      rw [this] at hs
      injection hs with hs
      rw [← hs]
      exact he

/-- A phone/email duplicate lookup with both parameters empty can
never match a well-formed lead (stored `NULL` never satisfies the
SQL equality, and a stored non-empty string never equals `""`). -/
theorem isDuplicate_no_contact (db : List Lead) (cid : Nat)
    (h : ∀ l ∈ db, leadWF l) :
    isDuplicate db cid "" "" = false := by
  unfold isDuplicate
  rw [List.any_eq_false]
  intro l hl
  have hwf := h l hl
  simp only [Bool.and_eq_true, Bool.or_eq_true, not_and, not_or]
  intro _
  constructor
  · match heq : l.phone with
    | none => simp
    | some s =>
      have := hwf.2.1 s heq
      simpa using this
  · match heq : l.email with
    | none => simp
    | some s =>
      have := hwf.2.2 s heq
      simpa using this

theorem syncStep_wf (cid : Nat) (cn sh : String) (last : Nat)
    (st : RunState) (r : Row) (l : Lead)
    (hl : l ∈ (syncStep cid cn sh last st r).db) :
    l ∈ st.db ∨ leadWF l := by
  unfold syncStep at hl
  split at hl
  · exact Or.inl hl
  · split at hl
    · exact Or.inl hl
    · rcases List.mem_append.mp hl with hmem | hmem
      · exact Or.inl hmem
      · rcases List.mem_singleton.mp hmem with rfl
        exact Or.inr (mkLead_wf cid cn sh r (st.current_row + 1))

theorem syncRows_wf (cid : Nat) (cn sh : String) (last : Nat) :
    ∀ (rows : List Row) (st : RunState) (l : Lead),
      l ∈ (syncRows cid cn sh last st rows).db → l ∈ st.db ∨ leadWF l := by
  intro rows
  induction rows with
  | nil => intro st l hl; exact Or.inl hl
  | cons r rest ih =>
    intro st l hl
    rcases ih (syncStep cid cn sh last st r) l hl with hmem | hwf
    · exact syncStep_wf cid cn sh last st r l hmem
    · exact Or.inr hwf

/-- After a completed run over `rows`, the campaign's cursor map for
this tab holds the final row counter `rows.length + 1`, and the sync
timestamp is set by the same update. -/
theorem sync_campaign_cursor (camp : Campaign) (db : List Lead)
    (rows : List Row) (t : Nat) :
    (sync_campaign camp db (some rows) t).1.cursor
      = setCursor camp.cursor (gidKey camp.sheet_url) (rows.length + 1) ∧
    (sync_campaign camp db (some rows) t).1.last_synced_at = t := by
  constructor
  · show setCursor camp.cursor (gidKey camp.sheet_url)
        (syncRows camp.customer_id camp.campaign_name camp.sheet_id
          (getCursor camp.cursor (gidKey camp.sheet_url))
          (initState db) rows).current_row
      = setCursor camp.cursor (gidKey camp.sheet_url) (rows.length + 1)
    rw [syncRows_current_row]
    congr 1
    show 1 + rows.length = rows.length + 1
    omega
  · rfl

/-- Unfolding of the sweep loop on a campaign whose URL parses but
whose fetch raises: a failure entry is recorded and the loop
continues on the remaining campaigns with the same database. -/
theorem syncAllGo_fetch_fail (fetchOf : Nat → Option (List Row)) (t : Nat)
    (c : Campaign) (cs : List Campaign) (db : List Lead) (sid : String)
    (hid : extractSheetId c.sheet_url = some sid)
    (hfetch : fetchOf c.id = none) :
    syncAllGo fetchOf t (c :: cs) db
      = (c :: (syncAllGo fetchOf t cs db).1,
         (syncAllGo fetchOf t cs db).2.1,
         failEntry c :: (syncAllGo fetchOf t cs db).2.2) := by
  simp only [syncAllGo]
  rw [hid, hfetch]

/-! ## Concrete fixtures for the counterexample and witness theorems -/

/-- A test campaign: customer 7, one tab (`gid_0`), fresh cursor. -/
def campA : Campaign :=
  { id := 1, customer_id := 7, campaign_name := "Autumn",
    sheet_url := "https://docs.google.com/spreadsheets/d/abc123/edit#gid=0",
    sheet_id := "abc123", active := true, cursor := [], last_synced_at := 0 }

/-- `campA` with the `gid_0` cursor already at row 5. -/
def campShrunk : Campaign := { campA with cursor := [("gid_0", 5)] }

/-- A sheet row carrying only a name — no phone, no email. -/
def rowNameOnly : Row := ⟨[("name", "Alice")]⟩

/-- A sheet row whose phone is written with hyphens. -/
def rowDashPhone : Row := ⟨[("name", "Bob"), ("phone", "052-123-4567")]⟩

/-- A sheet row whose phone carries a leading `+`. -/
def rowPlusPhone : Row := ⟨[("name", "Eve"), ("phone", "+0521234567")]⟩

/-- A sheet row whose email carries a trailing dot. -/
def rowDottedEmail : Row := ⟨[("name", "Dana"), ("email", "user@example.com.")]⟩

/-- A sheet row inserting cleanly (fresh phone). -/
def rowFresh : Row := ⟨[("name", "Carol"), ("phone", "0501111111")]⟩

/-- An existing stored lead with phone `"0521234567"`. -/
def leadWithPhone : Lead :=
  { customer_id := 7, name := "Stored Phone Lead", email := none,
    phone := some "0521234567", status := "new", campaign := some "Autumn",
    campaign_name := none, sheet_id := "abc123", row_number := 2 }

/-- An existing stored lead with email `"user@example.com"`. -/
def leadWithEmail : Lead :=
  { customer_id := 7, name := "Stored Email Lead",
    email := some "user@example.com", phone := none, status := "new",
    campaign := some "Autumn", campaign_name := none, sheet_id := "abc123",
    row_number := 2 }

/-- A column mapping for the legacy script fixtures. -/
def cmA : ColumnMapping := ⟨"name", "phone", "email", ""⟩

/-! ## Claim theorems -/

/-- C1 counterexample: a sheet containing a single name-only row
("Alice", no phone, no email) defeats replay idempotency.  The first
run inserts it; replaying the identical sheet with the cursor NOT
advanced (simulated crash before the cursor update) inserts it
again: the second run reports `new_leads = 1` and `duplicates = 0`,
where the claim demands zero new leads with every re-seen row a
duplicate.  The duplicate check cannot block the row because its
empty phone and email were stored as SQL `NULL`, which the
phone-or-email equality never matches. -/
theorem C1_counterexample :
    (sync_campaign campA [] (some [rowNameOnly]) 0).2.2
      = some { new_leads := 1, duplicates := 0, errors := 0,
               last_synced_row := 2 } ∧
    (sync_campaign campA ((sync_campaign campA [] (some [rowNameOnly]) 0).2.1)
        (some [rowNameOnly]) 0).2.2
      = some { new_leads := 1, duplicates := 0, errors := 0,
               last_synced_row := 2 } := by
  constructor
  · decide
  · decide

/-- C1 (amended): running `sync_campaign` twice on the same unchanged
sheet yields zero new leads on the second run provided no sheet row
is name-only (non-empty name with empty phone and empty email).
With the cursor not advanced (simulated crash before the cursor
update), every re-seen row is blocked by the duplicate check and the
leads table is unchanged; with the cursor advanced, no row is
re-examined at all, so the second run reports zero new leads and
zero duplicates.  A name-only row violates the unqualified claim
(see the counterexample). -/
theorem C1_theorem (camp : Campaign) (db0 : List Lead) (rows : List Row)
    (t1 t2 t3 : Nat)
    (h : ∀ r ∈ rows, nameOf r = "" ∨ phoneOf r ≠ "" ∨ emailOf r ≠ "") :
    (∃ res2, (sync_campaign camp ((sync_campaign camp db0 (some rows) t1).2.1)
        (some rows) t2).2.2 = some res2 ∧ res2.new_leads = 0) ∧
    (sync_campaign camp ((sync_campaign camp db0 (some rows) t1).2.1)
        (some rows) t2).2.1
      = (sync_campaign camp db0 (some rows) t1).2.1 ∧
    (∃ res3, (sync_campaign ((sync_campaign camp db0 (some rows) t1).1)
        ((sync_campaign camp db0 (some rows) t1).2.1) (some rows) t3).2.2
        = some res3 ∧ res3.new_leads = 0 ∧ res3.duplicates = 0) := by
  have hrep := replay_core camp.customer_id camp.campaign_name camp.sheet_id
    (getCursor camp.cursor (gidKey camp.sheet_url)) db0 rows h
  refine ⟨⟨_, rfl, hrep.1⟩, hrep.2, ?_⟩
  have hcur := (sync_campaign_cursor camp db0 rows t1).1
  have hL : rows.length + 1
      ≤ getCursor ((sync_campaign camp db0 (some rows) t1).1).cursor
          (gidKey camp.sheet_url) := by
    rw [hcur, getCursor_setCursor]
  have hadv := advanced_replay_core camp.customer_id camp.campaign_name
    camp.sheet_id ((sync_campaign camp db0 (some rows) t1).2.1) rows
    (getCursor ((sync_campaign camp db0 (some rows) t1).1).cursor
      (gidKey camp.sheet_url)) hL
  exact ⟨_, rfl, hadv.1, hadv.2⟩

/-- C1 witness: the amended replay theorem applied to a concrete
one-row sheet whose single row carries a non-empty phone. -/
theorem C1_witness :
    (∀ r ∈ [rowDashPhone], nameOf r = "" ∨ phoneOf r ≠ "" ∨ emailOf r ≠ "") ∧
    ((∃ res2, (sync_campaign campA
        ((sync_campaign campA [] (some [rowDashPhone]) 0).2.1)
        (some [rowDashPhone]) 1).2.2 = some res2 ∧ res2.new_leads = 0) ∧
     (sync_campaign campA ((sync_campaign campA [] (some [rowDashPhone]) 0).2.1)
        (some [rowDashPhone]) 1).2.1
       = (sync_campaign campA [] (some [rowDashPhone]) 0).2.1 ∧
     (∃ res3, (sync_campaign ((sync_campaign campA [] (some [rowDashPhone]) 0).1)
        ((sync_campaign campA [] (some [rowDashPhone]) 0).2.1)
        (some [rowDashPhone]) 2).2.2
        = some res3 ∧ res3.new_leads = 0 ∧ res3.duplicates = 0)) :=
  ⟨by decide, C1_theorem campA [] [rowDashPhone] 0 1 2 (by decide)⟩

/-- C2 counterexample: campaign `campShrunk` stores cursor 5 for tab
`gid_0`; a completed run over a sheet that now holds only two data
rows writes cursor 3 — strictly below the stored 5.  The cursor IS
rolled back when the fetched sheet shrinks, refuting unconditional
monotonicity. -/
theorem C2_counterexample :
    getCursor campShrunk.cursor "gid_0" = 5 ∧
    getCursor (sync_campaign campShrunk []
        (some [rowFresh, rowDashPhone]) 0).1.cursor "gid_0" = 3 := by
  constructor
  · decide
  · decide

/-- C2 (amended): a completed run writes the cursor for the processed
tab to exactly `rows.length + 1` (the final row counter); hence the
stored cursor is non-decreasing across runs precisely when each
fetched sheet has not shrunk below the stored cursor
(`getCursor ≤ rows.length + 1`).  A sheet with fewer rows than the
stored cursor causes a rollback (see the counterexample). -/
theorem C2_theorem (camp : Campaign) (db : List Lead) (rows : List Row)
    (t : Nat)
    (h : getCursor camp.cursor (gidKey camp.sheet_url) ≤ rows.length + 1) :
    getCursor (sync_campaign camp db (some rows) t).1.cursor
        (gidKey camp.sheet_url) = rows.length + 1 ∧
    getCursor camp.cursor (gidKey camp.sheet_url)
      ≤ getCursor (sync_campaign camp db (some rows) t).1.cursor
          (gidKey camp.sheet_url) := by
  have hc := (sync_campaign_cursor camp db rows t).1
  rw [hc, getCursor_setCursor]
  exact ⟨rfl, h⟩

/-- C2 witness: the amended cursor theorem applied to a one-row sheet
against a fresh cursor (stored value 1 ≤ 2). -/
theorem C2_witness :
    getCursor campA.cursor (gidKey campA.sheet_url) ≤ [rowFresh].length + 1 ∧
    (getCursor (sync_campaign campA [] (some [rowFresh]) 0).1.cursor
        (gidKey campA.sheet_url) = [rowFresh].length + 1 ∧
     getCursor campA.cursor (gidKey campA.sheet_url)
       ≤ getCursor (sync_campaign campA [] (some [rowFresh]) 0).1.cursor
           (gidKey campA.sheet_url)) :=
  ⟨by decide, C2_theorem campA [] [rowFresh] 0 (by decide)⟩

/-- C3 counterexample: the legacy scheduler variant
(`sync_campaigns.py`) violates the claim.  A completed two-row run —
row 1 inserted, row 2 a phone duplicate of an existing lead — writes
cursor 1, not the highest row index seen (2), because
`max_row_processed` advances only on inserts; and a completed run
with zero inserts (single duplicate row) performs no cursor update
at all. -/
theorem C3_counterexample :
    (script_sync 7 "Autumn" "abc123" cmA 0 [leadWithPhone]
        [rowFresh, rowDashPhone]).new_leads = 1 ∧
    (script_sync 7 "Autumn" "abc123" cmA 0 [leadWithPhone]
        [rowFresh, rowDashPhone]).duplicates = 1 ∧
    (script_sync 7 "Autumn" "abc123" cmA 0 [leadWithPhone]
        [rowFresh, rowDashPhone]).cursorWritten = some 1 ∧
    (script_sync 7 "Autumn" "abc123" cmA 0 [leadWithPhone]
        [rowDashPhone]).cursorWritten = none := by
  refine ⟨?_, ?_, ?_, ?_⟩ <;> decide

/-- C3 (amended): the claim holds for `app.py`'s `sync_campaign` (the
authoritative version): every completed run updates the processed
tab's cursor exactly once, to the final row counter
`rows.length + 1` (the highest row index seen, whether rows were
inserted, skipped as empty/invalid, or counted as duplicates), and
stamps the last-sync timestamp in the same update.  The legacy
`sync_campaigns.py` script does not satisfy this (see the
counterexample): it advances its cursor only past inserted rows and
skips the update entirely on zero-insert runs. -/
theorem C3_theorem (camp : Campaign) (db : List Lead) (rows : List Row)
    (t : Nat) :
    (sync_campaign camp db (some rows) t).1.cursor
      = setCursor camp.cursor (gidKey camp.sheet_url) (rows.length + 1) ∧
    getCursor (sync_campaign camp db (some rows) t).1.cursor
        (gidKey camp.sheet_url) = rows.length + 1 ∧
    (sync_campaign camp db (some rows) t).1.last_synced_at = t := by
  have hc := sync_campaign_cursor camp db rows t
  exact ⟨hc.1, by rw [hc.1, getCursor_setCursor], hc.2⟩

/-- C4 counterexample: the sync applies no email normalization at
all.  Against a stored lead with email `"user@example.com"`, a row
carrying `"user@example.com."` extracts the dotted string verbatim,
the duplicate lookup does not match, and the run inserts a new lead
(`new_leads = 1`, `duplicates = 0`) — the claim predicted the two
values normalize identically and the row is flagged as a
duplicate. -/
theorem C4_counterexample :
    ("user@example.com." : String) ≠ "user@example.com" ∧
    emailOf rowDottedEmail = "user@example.com." ∧
    isDuplicate [leadWithEmail] 7 (phoneOf rowDottedEmail)
      (emailOf rowDottedEmail) = false ∧
    (sync_campaign campA [leadWithEmail] (some [rowDottedEmail]) 0).2.2
      = some { new_leads := 1, duplicates := 0, errors := 0,
               last_synced_row := 2 } := by
  refine ⟨?_, ?_, ?_, ?_⟩ <;> decide

/-- C4 (amended): the sync performs no email normalization: the email
extracted from the row is used verbatim (no trimming, lowercasing,
or trailing-dot stripping) both for the duplicate comparison and for
storage.  Consequently `"user@example.com."` and
`"user@example.com"` remain distinct values: a row carrying the
dotted form is inserted as a new lead — stored with the dot — beside
an existing lead carrying the undotted form. -/
theorem C4_theorem :
    emailOf rowDottedEmail = "user@example.com." ∧
    leadWithEmail.email = some "user@example.com" ∧
    (sync_campaign campA [leadWithEmail] (some [rowDottedEmail]) 0).2.1
      = [leadWithEmail, mkLead 7 "Autumn" "abc123" rowDottedEmail 2] ∧
    (mkLead 7 "Autumn" "abc123" rowDottedEmail 2).email
      = some "user@example.com." := by
  refine ⟨?_, ?_, ?_, ?_⟩ <;> decide

/-- C5 counterexample: the phone cleanup does NOT strip a leading
`+`.  `normalizePhone` keeps `"+0521234567"` intact, so a row whose
phone carries the `+` prefix does not match a stored lead with the
same digits and is inserted as a new lead rather than flagged as a
duplicate — the claim asserts a leading `+` is stripped. -/
theorem C5_counterexample :
    normalizePhone "+0521234567" = "+0521234567" ∧
    ("+0521234567" : String) ≠ "0521234567" ∧
    phoneOf rowPlusPhone = "+0521234567" ∧
    (sync_campaign campA [leadWithPhone] (some [rowPlusPhone]) 0).2.2
      = some { new_leads := 1, duplicates := 0, errors := 0,
               last_synced_row := 2 } := by
  refine ⟨?_, ?_, ?_, ?_⟩ <;> decide

/-- C5 (amended): phone cleanup trims surrounding whitespace and
removes every hyphen and every interior space, but keeps a leading
`+`; the cleaned string is what is compared and stored.  The claim's
own example stands: `"052-123-4567"` cleans to `"0521234567"`, so
that row is detected as a duplicate of the stored lead with phone
`"0521234567"` and is not inserted, while the same number written
with a leading `+` is stored with the `+` intact when inserted
fresh. -/
theorem C5_theorem :
    phoneOf rowDashPhone = "0521234567" ∧
    normalizePhone " 052 123-4567 " = "0521234567" ∧
    normalizePhone "+052 123-4567" = "+0521234567" ∧
    (sync_campaign campA [leadWithPhone] (some [rowDashPhone]) 0).2.2
      = some { new_leads := 0, duplicates := 1, errors := 0,
               last_synced_row := 2 } ∧
    (sync_campaign campA [leadWithPhone] (some [rowDashPhone]) 0).2.1
      = [leadWithPhone] ∧
    (sync_campaign campA [] (some [rowDashPhone]) 0).2.1
      = [mkLead 7 "Autumn" "abc123" rowDashPhone 2] ∧
    (mkLead 7 "Autumn" "abc123" rowDashPhone 2).phone
      = some "0521234567" := by
  refine ⟨?_, ?_, ?_, ?_, ?_, ?_, ?_⟩ <;> decide

/-- C6: a row whose extracted name, cleaned phone and email are all
empty is skipped by the row loop: the leads table, `new_leads` and
`errors` are unchanged (only the row counter advances); and a row
with no non-empty cell at all is skipped by the unconditional
empty-row check, the whole step reducing to the counter bump. -/
theorem C6_theorem (cid : Nat) (cn sh : String) (last : Nat)
    (st : RunState) (r : Row)
    (hn : nameOf r = "") (hp : phoneOf r = "") (he : emailOf r = "") :
    (syncStep cid cn sh last st r).db = st.db ∧
    (syncStep cid cn sh last st r).new_leads = st.new_leads ∧
    (syncStep cid cn sh last st r).errors = st.errors ∧
    (rowNonEmpty r = false →
      syncStep cid cn sh last st r
        = { st with current_row := st.current_row + 1 }) := by
  have hskip : rowSkipped last (st.current_row + 1) r = true := by
    simp [rowSkipped, hn, hp, he]
  unfold syncStep
  rw [if_pos hskip]
  exact ⟨rfl, rfl, rfl, fun _ => rfl⟩

/-- C6 witness: the rejection theorem applied to a concrete row whose
only cell is empty. -/
theorem C6_witness :
    nameOf (Row.mk [("notes", "")]) = "" ∧
    phoneOf (Row.mk [("notes", "")]) = "" ∧
    emailOf (Row.mk [("notes", "")]) = "" ∧
    ((syncStep 7 "Autumn" "abc123" 1 (initState []) (Row.mk [("notes", "")])).db
        = (initState []).db ∧
     (syncStep 7 "Autumn" "abc123" 1 (initState [])
        (Row.mk [("notes", "")])).new_leads = (initState []).new_leads ∧
     (syncStep 7 "Autumn" "abc123" 1 (initState [])
        (Row.mk [("notes", "")])).errors = (initState []).errors ∧
     (rowNonEmpty (Row.mk [("notes", "")]) = false →
       syncStep 7 "Autumn" "abc123" 1 (initState []) (Row.mk [("notes", "")])
         = { initState [] with current_row := (initState []).current_row + 1 })) :=
  ⟨by decide, by decide, by decide,
    C6_theorem 7 "Autumn" "abc123" 1 (initState []) (Row.mk [("notes", "")])
      (by decide) (by decide) (by decide)⟩

/-- C7 counterexample: a name-only row ("Alice", no phone, no email)
is NOT rejected by the normalizer rule — it passes the skip checks
with both lookup parameters empty, reaches the phone-or-email
duplicate lookup, and (matching nothing) is inserted.  This refutes
the claim that the detector is never invoked with both arguments
empty. -/
theorem C7_counterexample :
    rowSkipped 1 2 rowNameOnly = false ∧
    phoneOf rowNameOnly = "" ∧
    emailOf rowNameOnly = "" ∧
    (syncStep 7 "Autumn" "abc123" 1 (initState []) rowNameOnly).db
      = [mkLead 7 "Autumn" "abc123" rowNameOnly 2] := by
  refine ⟨?_, ?_, ?_, ?_⟩ <;> decide

/-- C7 (amended): the rejection rule only guarantees that a row
reaching the duplicate lookup has SOME non-empty field among name,
phone and email — a name-only row reaches the lookup with both
parameters empty.  Such an empty-empty lookup never matches any
well-formed lead (in particular none inserted by the sync itself,
which stores `NULL` for empty phone/email), so it cannot
mis-classify the row as a duplicate. -/
theorem C7_theorem (last i : Nat) (r : Row) (db : List Lead) (cid : Nat)
    (hskip : rowSkipped last i r = false)
    (hwf : ∀ l ∈ db, leadWF l) :
    (nameOf r ≠ "" ∨ phoneOf r ≠ "" ∨ emailOf r ≠ "") ∧
    (phoneOf r = "" → emailOf r = "" →
      isDuplicate db cid (phoneOf r) (emailOf r) = false) := by
  constructor
  · by_contra hcon
    push_neg at hcon
    exact rowSkipped_false_fields last i r hskip ⟨hcon.1, hcon.2.1, hcon.2.2⟩
  · intro hp he
    rw [hp, he]
    exact isDuplicate_no_contact db cid hwf

/-- C7 witness: the amended theorem applied to the concrete name-only
row against an empty leads table. -/
theorem C7_witness :
    rowSkipped 1 2 rowNameOnly = false ∧
    (∀ l ∈ ([] : List Lead), leadWF l) ∧
    ((nameOf rowNameOnly ≠ "" ∨ phoneOf rowNameOnly ≠ "" ∨
        emailOf rowNameOnly ≠ "") ∧
     (phoneOf rowNameOnly = "" → emailOf rowNameOnly = "" →
       isDuplicate [] 7 (phoneOf rowNameOnly) (emailOf rowNameOnly) = false)) :=
  ⟨by decide, by simp,
    C7_theorem 1 2 rowNameOnly [] 7 (by decide) (by simp)⟩

/-- C8: a fetch failure (network error, timeout, non-2xx) aborts that
campaign's sync with the campaign record — cursor included — and the
leads table untouched and no result counters; and in a
`sync_all_campaigns` sweep, a campaign whose fetch raises gets a
`success:false` entry while the remaining campaigns are still synced
against the same database. -/
theorem C8_theorem (camp : Campaign) (db : List Lead) (t : Nat)
    (c : Campaign) (rest : List Campaign)
    (fetchOf : Nat → Option (List Row)) (sid : String)
    (hactive : c.active = true) (hurl : c.sheet_url ≠ "")
    (hid : extractSheetId c.sheet_url = some sid)
    (hfetch : fetchOf c.id = none) :
    sync_campaign camp db none t = (camp, db, none) ∧
    (sync_all_campaigns (c :: rest) fetchOf db t).2.2
      = failEntry c :: (sync_all_campaigns rest fetchOf db t).2.2 ∧
    (sync_all_campaigns (c :: rest) fetchOf db t).2.1
      = (sync_all_campaigns rest fetchOf db t).2.1 ∧
    (failEntry c).success = false := by
  have hfil : activeCampaigns (c :: rest) = c :: activeCampaigns rest := by
    simp [activeCampaigns, List.filter_cons, hactive, bne_iff_ne.mpr hurl]
  have hgo := syncAllGo_fetch_fail fetchOf t c (activeCampaigns rest) db sid
    hid hfetch
  refine ⟨rfl, ?_, ?_, rfl⟩
  · show (syncAllGo fetchOf t (activeCampaigns (c :: rest)) db).2.2 = _
    rw [hfil, hgo]
    rfl
  · show (syncAllGo fetchOf t (activeCampaigns (c :: rest)) db).2.1 = _
    rw [hfil, hgo]
    rfl

/-- C8 witness: the fetch-failure theorem applied to the concrete
campaign `campA` as the sole (failing) member of a sweep. -/
theorem C8_witness :
    campA.active = true ∧
    campA.sheet_url ≠ "" ∧
    extractSheetId campA.sheet_url = some "abc123" ∧
    (fun _ : Nat => (none : Option (List Row))) campA.id = none ∧
    (sync_campaign campA [] none 0 = (campA, [], none) ∧
     (sync_all_campaigns [campA] (fun _ => none) [] 0).2.2
       = failEntry campA :: (sync_all_campaigns [] (fun _ => none) [] 0).2.2 ∧
     (sync_all_campaigns [campA] (fun _ => none) [] 0).2.1
       = (sync_all_campaigns [] (fun _ => none) [] 0).2.1 ∧
     (failEntry campA).success = false) :=
  ⟨by decide, by decide, by decide, rfl,
    C8_theorem campA [] 0 campA [] (fun _ => none) "abc123"
      (by decide) (by decide) (by decide) rfl⟩

/-- C9 counterexample: with the database reachable, an existing
campaign, a valid sheet URL, and no missing request parameter, a
mere fetch failure makes the single-campaign sync endpoint return
HTTP 500 — refuting the claim that a non-200 status occurs only on
database unavailability or a missing required parameter. -/
theorem C9_counterexample :
    (sync_campaign_endpoint true (some campA) [] none 0).1 = 500 ∧
    (500 : Nat) ≠ 200 := by
  refine ⟨?_, ?_⟩ <;> decide

/-- C9 (amended): the single-campaign endpoint returns 200 exactly
when the database is reachable AND the campaign exists AND its sheet
URL is non-empty and parseable AND the fetch succeeds — it returns
404 for a missing campaign, 400 for a missing/invalid URL, and 500
for a fetch failure, not only for database unavailability.  The
sweep endpoint, by contrast, returns 200 whenever the database is
reachable, regardless of per-campaign failures. -/
theorem C9_theorem (dbAvail : Bool) (found : Option Campaign)
    (db : List Lead) (fetch : Option (List Row)) (t : Nat)
    (camps : List Campaign) (fetchOf : Nat → Option (List Row)) :
    ((sync_campaign_endpoint dbAvail found db fetch t).1 = 200 ↔
      (dbAvail = true ∧ ∃ camp, found = some camp ∧ camp.sheet_url ≠ "" ∧
        (∃ sid, extractSheetId camp.sheet_url = some sid) ∧
        ∃ rows, fetch = some rows)) ∧
    (dbAvail = true →
      (sync_all_endpoint dbAvail camps fetchOf db t).1 = 200) := by
  constructor
  · cases dbAvail with
    | false => simp [sync_campaign_endpoint]
    | true =>
      match found with
      | none => simp [sync_campaign_endpoint]
      | some camp =>
        by_cases hurl : camp.sheet_url = ""
        · simp [sync_campaign_endpoint, hurl]
        · match hid : extractSheetId camp.sheet_url with
          | none => simp [sync_campaign_endpoint, hurl, hid]
          | some sid =>
            match fetch with
            | none => simp [sync_campaign_endpoint, hurl, hid]
            | some rows => simp [sync_campaign_endpoint, hurl, hid]
  · intro hdb
    simp [sync_all_endpoint, hdb]

/-- C9 witness: the status characterization applied at a concrete
reachable-database, successful-fetch instance. -/
theorem C9_witness :
    ((sync_campaign_endpoint true (some campA) [] (some []) 0).1 = 200 ↔
      ((true : Bool) = true ∧ ∃ camp, (some campA : Option Campaign) = some camp ∧
        camp.sheet_url ≠ "" ∧
        (∃ sid, extractSheetId camp.sheet_url = some sid) ∧
        ∃ rows, (some ([] : List Row) : Option (List Row)) = some rows)) ∧
    ((true : Bool) = true →
      (sync_all_endpoint true [] (fun _ => none) [] 0).1 = 200) :=
  C9_theorem true (some campA) [] (some []) 0 [] (fun _ => none)

/-- C10: every lead present after a sync run is either a pre-existing
lead or satisfies the shape invariant `leadWF`: non-empty name
(empty names fall back to `'Unknown'`), and phone/email each either
SQL `NULL` or a non-empty string; moreover the inserted-lead
constructor maps an empty cleaned phone or email to `NULL` (not
`""`) and an empty name to `'Unknown'`. -/
theorem C10_theorem (camp : Campaign) (db : List Lead)
    (fetch : Option (List Row)) (t : Nat) (l : Lead)
    (hl : l ∈ (sync_campaign camp db fetch t).2.1) :
    (l ∈ db ∨ leadWF l) ∧
    (∀ (cid : Nat) (cn sh : String) (r : Row) (i : Nat),
      (phoneOf r = "" → (mkLead cid cn sh r i).phone = none) ∧
      (emailOf r = "" → (mkLead cid cn sh r i).email = none) ∧
      (nameOf r = "" → (mkLead cid cn sh r i).name = "Unknown")) := by
  constructor
  · match fetch with
    | none => exact Or.inl hl
    | some rows =>
      exact syncRows_wf camp.customer_id camp.campaign_name camp.sheet_id
        (getCursor camp.cursor (gidKey camp.sheet_url)) rows (initState db)
        l hl
  · intro cid cn sh r i
    refine ⟨fun hp => ?_, fun he => ?_, fun hn => ?_⟩
    · simp [mkLead, hp]
    · simp [mkLead, he]
    · simp [mkLead, hn]

/-- C10 witness: the invariant applied to the lead inserted by a
concrete run over a name-only row (stored name `'Unknown'`-free
here: "Alice"; phone and email stored as `NULL`). -/
theorem C10_witness :
    mkLead 7 "Autumn" "abc123" rowNameOnly 2
      ∈ (sync_campaign campA [] (some [rowNameOnly]) 0).2.1 ∧
    ((mkLead 7 "Autumn" "abc123" rowNameOnly 2 ∈ ([] : List Lead) ∨
        leadWF (mkLead 7 "Autumn" "abc123" rowNameOnly 2)) ∧
     (∀ (cid : Nat) (cn sh : String) (r : Row) (i : Nat),
       (phoneOf r = "" → (mkLead cid cn sh r i).phone = none) ∧
       (emailOf r = "" → (mkLead cid cn sh r i).email = none) ∧
       (nameOf r = "" → (mkLead cid cn sh r i).name = "Unknown"))) :=
  ⟨by decide,
    C10_theorem campA [] (some [rowNameOnly]) 0
      (mkLead 7 "Autumn" "abc123" rowNameOnly 2) (by decide)⟩
